import Mathlib

/-!
Shallow embedding of the deterministic marking engine of `src/server.js`
(the helpers `wordCount` and `hasAny`, the four element detectors, the
status helpers `statusFromLevel` and `tagStatus`, and the function
`markPromptingResponse`), together with proofs checking the
specification's claims about it.

Text is modelled as `List Char`.  The JavaScript values that can reach the
engine are modelled by `JsValue` (null, undefined, booleans, integer
numbers and strings); the coercion `String(x || "")` used by the source is
`jsOrEmpty`.  Case lowering models `String.prototype.toLowerCase` on the
ASCII range, which covers every character occurring in the trigger tables.

The ungated branch of `markPromptingResponse` (source lines 197-282) builds
a reply object whose `framework` property reads the identifier
`LEARN_MORE_TEXT` (line 279).  No binding of that name exists anywhere in
the module (the constant defined at line 117 is named `FRAMEWORK` and is
never used), so evaluating that branch raises a `ReferenceError` before any
result is returned.  The embedding therefore returns
`Except.error (JsError.referenceError "LEARN_MORE_TEXT")` on that branch,
while the intermediate values the branch computes at lines 200-270
(detector flags, `presentCount`, `score`, `strengths`, rubric message,
`tags`, `grid`) are embedded as the standalone definitions below, named
after the local variables of the source.
-/

set_option maxRecDepth 100000

namespace Automarker

/-- Whitespace class of JavaScript regular expressions (`\s`), which is also
the character set removed by `String.prototype.trim`. -/
def jsSpace (c : Char) : Bool :=
  ([' ', '\t', '\n', '\r', '\x0b', '\x0c', ' ', ' ',
    ' ', ' ', ' ', ' ', ' ', ' ', ' ',
    ' ', ' ', ' ', ' ', ' ', ' ', ' ',
    ' ', '　', '﻿'] : List Char).contains c

/-- ASCII case lowering, the fragment of `String.prototype.toLowerCase`
exercised by the engine (all trigger phrases are ASCII). -/
def lowerChar (c : Char) : Char :=
  match c with
  | 'A' => 'a' | 'B' => 'b' | 'C' => 'c' | 'D' => 'd' | 'E' => 'e'
  | 'F' => 'f' | 'G' => 'g' | 'H' => 'h' | 'I' => 'i' | 'J' => 'j'
  | 'K' => 'k' | 'L' => 'l' | 'M' => 'm' | 'N' => 'n' | 'O' => 'o'
  | 'P' => 'p' | 'Q' => 'q' | 'R' => 'r' | 'S' => 's' | 'T' => 't'
  | 'U' => 'u' | 'V' => 'v' | 'W' => 'w' | 'X' => 'x' | 'Y' => 'y'
  | 'Z' => 'z'
  | c => c

def lowerChars (l : List Char) : List Char := l.map lowerChar

/-- Does the needle (first argument) occur as a prefix of the text? -/
def isPrefixList : List Char → List Char → Bool
  | [], _ => true
  | _ :: _, [] => false
  | a :: n, c :: t => a == c && isPrefixList n t

/-- Model of `String.prototype.includes`: does the needle (second argument)
occur as a contiguous substring of the text (first argument)? -/
def containsSub : List Char → List Char → Bool
  | [], n => isPrefixList n []
  | c :: t, n => isPrefixList n (c :: t) || containsSub t n

/-- Word counting: number of maximal runs of non-whitespace characters,
which is exactly `t.trim().split(/\s+/).filter(Boolean).length` of the
source (lines 65-69).  The boolean argument records whether the scan is
currently inside a run. -/
def countWordsAux : List Char → Bool → Nat
  | [], _ => 0
  | c :: t, inWord =>
    if jsSpace c then countWordsAux t false
    else (if inWord then 0 else 1) + countWordsAux t true

def countWords (l : List Char) : Nat := countWordsAux l false

/-- Model of `String.prototype.trim`. -/
def trimChars (l : List Char) : List Char :=
  ((l.dropWhile fun c => jsSpace c).reverse.dropWhile fun c => jsSpace c).reverse

/-- JavaScript values that can reach the engine through `req.body`. -/
inductive JsValue where
  | nullV
  | undefV
  | boolV (b : Bool)
  | numV (n : Int)
  | strV (s : String)
deriving DecidableEq

/-- JavaScript falsiness for the modelled values. -/
def jsFalsy : JsValue → Bool
  | .nullV => true
  | .undefV => true
  | .boolV b => !b
  | .numV n => n == 0
  | .strV s => s == ""

/-- The `String(·)` coercion for the modelled values. -/
def jsToString : JsValue → String
  | .nullV => "null"
  | .undefV => "undefined"
  | .boolV b => if b then "true" else "false"
  | .numV n => toString n
  | .strV s => s

/-- The idiom `String(x || "")` used at source lines 62, 66 and 197. -/
def jsOrEmpty (v : JsValue) : String :=
  if jsFalsy v then "" else jsToString v

/-- Source lines 65-69: `wordCount`. -/
def wordCount (text : JsValue) : Nat :=
  countWords (jsOrEmpty text).data

/-- Source lines 71-74: `hasAny` lowercases its text and tests whether any
needle occurs as a substring. -/
def hasAny (text : List Char) (needles : List (List Char)) : Bool :=
  needles.any fun n => containsSub (lowerChars text) n

/-- JavaScript word-character class `\w`. -/
def wordChar (c : Char) : Bool :=
  ('a' ≤ c && c ≤ 'z') || ('A' ≤ c && c ≤ 'Z') || ('0' ≤ c && c ≤ '9') || c == '_'

/-- Matches `\s*:` at the head of the text. -/
def spacesColon : List Char → Bool
  | [] => false
  | c :: t => if c == ':' then true else if jsSpace c then spacesColon t else false

/-- Matches the label word followed by `\s*:` at the head of the text. -/
def labelHere : List Char → List Char → Bool
  | [], t => spacesColon t
  | _ :: _, [] => false
  | a :: n, c :: t => a == c && labelHere n t

/-- Model of `/\b<w>\b\s*:/.test(t)` for a label word `w` made of word
characters: search for an occurrence of `w` followed by `\s*:`, where the
character before the occurrence (tracked by the `Option Char` argument,
`none` at the start of the text) is not a word character.  The trailing
word boundary needs no separate check because the character right after
`w` is matched by `\s*:` and is therefore a space or a colon, neither of
which is a word character. -/
def labelScan (w : List Char) : Option Char → List Char → Bool
  | _, [] => false
  | prev, c :: t =>
    ((match prev with | none => true | some p => !wordChar p) && labelHere w (c :: t))
      || labelScan w (some c) t

/-- Trigger phrases for Role (source lines 201-203). -/
def roleNeedles : List (List Char) :=
  ["you are a", "act as", "as a", "assume the role", "take the role",
   "you’re a", "you are an"].map String.data

/-- Trigger phrases for Task (source lines 205-207). -/
def taskNeedles : List (List Char) :=
  ["give me", "create", "produce", "generate", "write", "plan", "build",
   "summarise", "summarize", "list", "draft"].map String.data

/-- Trigger phrases for Context (source lines 209-211). -/
def contextNeedles : List (List Char) :=
  ["i am", "i’m", "we are", "for someone", "for colleagues", "for a visitor",
   "first time", "staying", "in june", "audience", "for"].map String.data

/-- Trigger phrases for Format (source lines 213-215). -/
def formatNeedles : List (List Char) :=
  ["bullet", "bullets", "table", "headings", "tone", "professional",
   "friendly", "constraints", "include", "must", "ensure", "distance",
   "fees", "costs", "time", "morning", "afternoon"].map String.data

/-- Source lines 201-203: `hasRole`, evaluated on the lowercased text. -/
def hasRole (t : List Char) : Bool :=
  labelScan "role".data none t || hasAny t roleNeedles

/-- Source lines 205-207: `hasTask`, evaluated on the lowercased text. -/
def hasTask (t : List Char) : Bool :=
  labelScan "task".data none t || hasAny t taskNeedles

/-- Source lines 209-211: `hasContext`, evaluated on the lowercased text. -/
def hasContext (t : List Char) : Bool :=
  labelScan "context".data none t || hasAny t contextNeedles

/-- Source lines 213-215: `hasFormat`, evaluated on the lowercased text. -/
def hasFormat (t : List Char) : Bool :=
  labelScan "format".data none t || hasAny t formatNeedles

/-- Source line 217: `[hasRole, hasTask, hasContext, hasFormat].filter(Boolean).length`. -/
def presentCount (t : List Char) : Nat :=
  List.count true [hasRole t, hasTask t, hasContext t, hasFormat t]

/-- Source lines 220-223: the score mapping. -/
def scoreOf (t : List Char) : Nat :=
  if presentCount t = 4 then 10
  else if presentCount t ≥ 2 then 7
  else 3

def sRole : String := "You set a clear role for the AI, which improves relevance."
def sTask : String := "You stated what you want the AI to do, which makes the request actionable."
def sContext : String := "You included context about the situation/audience, which helps the AI tailor the response."
def sFormat : String := "You specified format/constraints, which improves structure and usefulness."

/-- Source lines 226-230: the `strengths` array built by conditional pushes. -/
def strengthsFull (t : List Char) : List String :=
  let s : List String := []
  let s := if hasRole t then s ++ [sRole] else s
  let s := if hasTask t then s ++ [sTask] else s
  let s := if hasContext t then s ++ [sContext] else s
  let s := if hasFormat t then s ++ [sFormat] else s
  s

/-- Source line 232: `strengths.slice(0, 3)`. -/
def strengthsTop (t : List Char) : List String :=
  (strengthsFull t).take 3

/-- Source lines 235-239: the improvement notes for missing elements. -/
def missingNotes (t : List Char) : List String :=
  let m : List String := []
  let m := if hasRole t then m else m ++ ["Add a **role** (who should the AI act as?)."]
  let m := if hasTask t then m else m ++ ["Add a clear **task** (what should the AI produce/do?)."]
  let m := if hasContext t then m else m ++ ["Add **context** (who is it for, where/when, key details)."]
  let m := if hasFormat t then m else m ++ ["Add **format/constraints** (bullets, tone, required info, limits)."]
  m

/-- Source lines 242-245: the three-tier rubric message. -/
def rubricMsg (t : List Char) : String :=
  if presentCount t = 4 then "Excellent – you’ve followed the prompt formula."
  else if presentCount t ≥ 2 then "Good – try adding audience or tone to strengthen further."
  else "Needs improvement – use the formula: role, task, context, format."

/-- Source lines 248-252: the feedback text. -/
def feedbackText (t : List Char) : String :=
  rubricMsg t ++ "\n\n" ++
    (if missingNotes t = [] then
      "Strong prompt — it includes role, task, context and format."
    else "To strengthen it:\n- " ++ String.intercalate "\n- " (missingNotes t))

/-- Source lines 157-162: `statusFromLevel`. -/
def statusFromLevel (level : Nat) : String :=
  if level ≥ 2 then "✓ Secure"
  else if level = 1 then "◐ Developing"
  else "✗ Missing"

/-- Source lines 164-169: `tagStatus`. -/
def tagStatus (level : Nat) : String :=
  if level ≥ 2 then "ok"
  else if level = 1 then "mid"
  else "bad"

structure Tag where
  name : String
  status : String
deriving DecidableEq

/-- Source lines 255-261: the five tags. -/
def tagsOf (t : List Char) : List Tag :=
  [⟨"Role", tagStatus (if hasRole t then 2 else 0)⟩,
   ⟨"Task", tagStatus (if hasTask t then 2 else 0)⟩,
   ⟨"Context", tagStatus (if hasContext t then 2 else 0)⟩,
   ⟨"Format", tagStatus (if hasFormat t then 2 else 0)⟩,
   ⟨"Clarity", tagStatus (if presentCount t ≥ 3 then 2 else if presentCount t = 2 then 1 else 0)⟩]

structure Grid where
  ethical : String
  impact : String
  legal : String
  recs : String
  «structure» : String
deriving DecidableEq

/-- Source lines 264-270: the five grid rows. -/
def gridOf (t : List Char) : Grid :=
  ⟨statusFromLevel (if hasRole t then 2 else 0),
   statusFromLevel (if hasTask t then 2 else 0),
   statusFromLevel (if hasContext t then 2 else 0),
   statusFromLevel (if hasFormat t then 2 else 0),
   statusFromLevel (if presentCount t = 4 then 2 else if presentCount t ≥ 2 then 1 else 0)⟩

/-- Result shape of `markPromptingResponse`.  Fields that the gated branch
sets to `null` are `Option`s; `framework` would be filled from the unbound
identifier `LEARN_MORE_TEXT` on the ungated branch and is therefore never
populated. -/
structure FeedbackResult where
  gated : Bool
  wordCount : Nat
  message : Option String
  score : Option Nat
  feedback : Option String
  strengths : Option (List String)
  tags : Option (List Tag)
  grid : Option Grid
  framework : Option Unit
  modelAnswer : Option String
deriving DecidableEq

inductive JsError where
  | referenceError (name : String)
deriving DecidableEq

/-- Source lines 183-186: the fixed instructional message of the gate. -/
def gateMessage : String :=
  "Please add to your answer.\nThis response is too short to demonstrate the full prompt structure.\nAim for at least 50 words and include: role, task, context, and format."

/-- Source lines 180-194: the gated reply object. -/
def gatedResult (wc : Nat) : FeedbackResult :=
  ⟨true, wc, some gateMessage, none, none, none, none, none, none, none⟩

/-- The lowercased text `t` of source lines 197-198 for a given input. -/
def lowTextOf (v : JsValue) : List Char :=
  lowerChars (jsOrEmpty v).data

/-- Source lines 175-283: `markPromptingResponse`.  Inputs under 50 words
short-circuit to the gated reply (lines 179-195).  The ungated branch
computes the values embedded above (`presentCount`, `scoreOf`,
`strengthsTop`, `rubricMsg`, `tagsOf`, `gridOf`, `feedbackText` of
`lowTextOf v`), but the reply object built at lines 272-282 reads the
identifier `LEARN_MORE_TEXT` for its `framework` property (line 279), and
no binding of that name exists in the module, so the branch raises a
`ReferenceError` instead of returning. -/
def markPromptingResponse (answerText : JsValue) : Except JsError FeedbackResult :=
  let wc := wordCount answerText
  if wc < 50 then
    .ok (gatedResult wc)
  else
    .error (.referenceError "LEARN_MORE_TEXT")

/-- A block of n copies of a chunk of characters, used to build concrete
test submissions. -/
def repChars : Nat → List Char → List Char
  | 0, _ => []
  | n + 1, w => w ++ repChars n w

/-- Forty-nine words. -/
def red49 : List Char := repChars 49 "red ".data

/-- Fifty words. -/
def red50 : List Char := repChars 50 "red ".data

/-- The all-four scenario input of the specification (28 words). -/
def c4Input : String :=
  "You are a tour guide (role). Create a 7 day itinerary (task) for a first-time visitor staying in June (context). Give me bullets with costs and distance (format)."

/-- The all-four scenario input padded to 50 words so that it passes the
50-word gate of this variant. -/
def allFourLong : List Char := c4Input.data ++ repChars 22 " red".data

/-- A 50-word submission detecting Role, Task and Format but not Context. -/
def pc3Long : List Char := "you are a guide. create bullets.".data ++ repChars 44 " red".data

/-- Number of tags whose status is ok. -/
def okTagCount (t : List Char) : Nat :=
  (tagsOf t).countP fun tg => tg.status == "ok"

/-- A tag status and a grid status express the same detection level. -/
def agreeStatus (tagSt gridSt : String) : Bool :=
  ((tagSt == "ok") == (gridSt == "✓ Secure")) &&
  ((tagSt == "mid") == (gridSt == "◐ Developing")) &&
  ((tagSt == "bad") == (gridSt == "✗ Missing"))

/-- The four structural elements. -/
inductive Element where
  | role
  | task
  | context
  | format
deriving DecidableEq

/-- Trigger-phrase table of an element. -/
def needlesOf : Element → List (List Char)
  | .role => roleNeedles
  | .task => taskNeedles
  | .context => contextNeedles
  | .format => formatNeedles

/-- Detector of an element on the lowercased text. -/
def detects : Element → List Char → Bool
  | .role, t => hasRole t
  | .task, t => hasTask t
  | .context, t => hasContext t
  | .format, t => hasFormat t

example : countWords red50 = 50 := by decide
example : countWords red49 = 49 := by decide
example : countWords c4Input.data = 28 := by decide
example : countWords allFourLong = 50 := by decide
example : presentCount (lowerChars allFourLong) = 4 := by decide
example : presentCount (lowerChars red50) = 0 := by decide
example : presentCount (lowerChars pc3Long) = 3 := by decide
example : countWords pc3Long = 50 := by decide

/-! Helper lemmas: all the matching primitives are monotone when text is
appended on the right, so detection can only gain elements. -/

theorem isPrefixList_append (n t u : List Char) (h : isPrefixList n t = true) :
    isPrefixList n (t ++ u) = true := by
  induction n generalizing t with
  | nil => rfl
  | cons a n ih =>
    cases t with
    | nil => simp [isPrefixList] at h
    | cons c t =>
      simp only [isPrefixList, List.cons_append, Bool.and_eq_true] at h ⊢
      exact ⟨h.1, ih t h.2⟩

theorem containsSub_nil (t : List Char) : containsSub t [] = true := by
  cases t <;> simp [containsSub, isPrefixList]

theorem containsSub_append (t u n : List Char) (h : containsSub t n = true) :
    containsSub (t ++ u) n = true := by
  induction t with
  | nil =>
    cases n with
    | nil => exact containsSub_nil u
    | cons a n => simp [containsSub, isPrefixList] at h
  | cons c t ih =>
    simp only [containsSub, List.cons_append, Bool.or_eq_true] at h ⊢
    rcases h with h | h
    · exact Or.inl (isPrefixList_append n (c :: t) u h)
    · exact Or.inr (ih h)

theorem spacesColon_append (t u : List Char) (h : spacesColon t = true) :
    spacesColon (t ++ u) = true := by
  induction t with
  | nil => simp [spacesColon] at h
  | cons c t ih =>
    simp only [spacesColon, List.cons_append] at h ⊢
    cases hc : (c == ':') with
    | true => simp [hc]
    | false =>
      cases hs : jsSpace c with
      | true =>
        simp only [hc, hs, if_false, if_true, Bool.false_eq_true] at h ⊢
        exact ih h
      | false => simp [hc, hs] at h

theorem labelHere_append (w t u : List Char) (h : labelHere w t = true) :
    labelHere w (t ++ u) = true := by
  induction w generalizing t with
  | nil => exact spacesColon_append t u h
  | cons a w ih =>
    cases t with
    | nil => simp [labelHere] at h
    | cons c t =>
      simp only [labelHere, List.cons_append, Bool.and_eq_true] at h ⊢
      exact ⟨h.1, ih t h.2⟩

theorem labelScan_append (w : List Char) (prev : Option Char) (t u : List Char)
    (h : labelScan w prev t = true) : labelScan w prev (t ++ u) = true := by
  induction t generalizing prev with
  | nil => simp [labelScan] at h
  | cons c t ih =>
    simp only [labelScan, List.cons_append, Bool.or_eq_true, Bool.and_eq_true] at h ⊢
    rcases h with ⟨h1, h2⟩ | h
    · exact Or.inl ⟨h1, labelHere_append w (c :: t) u h2⟩
    · exact Or.inr (ih (some c) h)

theorem lowerChars_append (t u : List Char) :
    lowerChars (t ++ u) = lowerChars t ++ lowerChars u :=
  List.map_append lowerChar t u

theorem hasAny_append (t u : List Char) (ns : List (List Char))
    (h : hasAny t ns = true) : hasAny (t ++ u) ns = true := by
  simp only [hasAny, List.any_eq_true] at h ⊢
  obtain ⟨n, hn, hc⟩ := h
  refine ⟨n, hn, ?_⟩
  rw [lowerChars_append]
  exact containsSub_append (lowerChars t) (lowerChars u) n hc

theorem detector_append (w : List Char) (ns : List (List Char)) (t u : List Char)
    (h : (labelScan w none t || hasAny t ns) = true) :
    (labelScan w none (t ++ u) || hasAny (t ++ u) ns) = true := by
  simp only [Bool.or_eq_true] at h ⊢
  rcases h with h | h
  · exact Or.inl (labelScan_append w none t u h)
  · exact Or.inr (hasAny_append t u ns h)

theorem hasRole_append (t u : List Char) (h : hasRole t = true) :
    hasRole (t ++ u) = true :=
  detector_append "role".data roleNeedles t u h

theorem hasTask_append (t u : List Char) (h : hasTask t = true) :
    hasTask (t ++ u) = true :=
  detector_append "task".data taskNeedles t u h

theorem hasContext_append (t u : List Char) (h : hasContext t = true) :
    hasContext (t ++ u) = true :=
  detector_append "context".data contextNeedles t u h

theorem hasFormat_append (t u : List Char) (h : hasFormat t = true) :
    hasFormat (t ++ u) = true :=
  detector_append "format".data formatNeedles t u h

theorem count_true_four (a b c d : Bool) :
    List.count true [a, b, c, d] = a.toNat + b.toNat + c.toNat + d.toNat := by
  revert a b c d
  decide

theorem presentCount_eq (t : List Char) :
    presentCount t =
      (hasRole t).toNat + (hasTask t).toNat + (hasContext t).toNat + (hasFormat t).toNat :=
  count_true_four (hasRole t) (hasTask t) (hasContext t) (hasFormat t)

theorem toNat_le_of_imp {a b : Bool} (h : a = true → b = true) : a.toNat ≤ b.toNat := by
  cases a with
  | false => exact Nat.zero_le _
  | true => rw [h rfl]

theorem presentCount_le_four (t : List Char) : presentCount t ≤ 4 := by
  rw [presentCount_eq]
  cases hasRole t <;> cases hasTask t <;> cases hasContext t <;> cases hasFormat t <;> decide

theorem presentCount_append (t u : List Char) :
    presentCount t ≤ presentCount (t ++ u) := by
  rw [presentCount_eq, presentCount_eq]
  have hR := toNat_le_of_imp (hasRole_append t u)
  have hT := toNat_le_of_imp (hasTask_append t u)
  have hC := toNat_le_of_imp (hasContext_append t u)
  have hF := toNat_le_of_imp (hasFormat_append t u)
  exact Nat.add_le_add (Nat.add_le_add (Nat.add_le_add hR hT) hC) hF

theorem scoreCond_mono {a b : Nat} (hab : a ≤ b) (hb : b ≤ 4) :
    (if a = 4 then 10 else if a ≥ 2 then 7 else 3 : Nat) ≤
      (if b = 4 then 10 else if b ≥ 2 then 7 else 3) := by
  split_ifs <;> omega

theorem scoreOf_append (t u : List Char) : scoreOf t ≤ scoreOf (t ++ u) := by
  unfold scoreOf
  exact scoreCond_mono (presentCount_append t u) (presentCount_le_four (t ++ u))

theorem okTagCount_eq (t : List Char) :
    okTagCount t = presentCount t + (if presentCount t ≥ 3 then 1 else 0) := by
  simp only [okTagCount, tagsOf, presentCount_eq]
  cases hasRole t <;> cases hasTask t <;> cases hasContext t <;> cases hasFormat t <;> decide

theorem okTagCount_append (t u : List Char) : okTagCount t ≤ okTagCount (t ++ u) := by
  rw [okTagCount_eq, okTagCount_eq]
  have h := presentCount_append t u
  split_ifs <;> omega

/-! Helper lemmas about word counting, trimming and case lowering. -/

theorem countWordsAux_allSpace (s : List Char) (h : ∀ c ∈ s, jsSpace c = true)
    (b : Bool) : countWordsAux s b = 0 := by
  induction s generalizing b with
  | nil => rfl
  | cons c t ih =>
    simp only [countWordsAux]
    rw [if_pos (h c (List.mem_cons_self c t))]
    exact ih (fun x hx => h x (List.mem_cons_of_mem c hx)) false

theorem countWords_eq_zero_iff (s : List Char) :
    countWords s = 0 ↔ ∀ c ∈ s, jsSpace c = true := by
  constructor
  · intro h
    induction s with
    | nil => intro c hc; cases hc
    | cons c t ih =>
      simp only [countWords, countWordsAux] at h
      cases hs : jsSpace c with
      | true =>
        rw [if_pos hs] at h
        intro x hx
        rcases List.mem_cons.mp hx with rfl | hx
        · exact hs
        · exact ih h x hx
      | false =>
        rw [if_neg (by simp [hs])] at h
        simp only [Bool.false_eq_true, if_false] at h
        exact absurd h (by omega)
  · intro h
    exact countWordsAux_allSpace s h false

theorem dropWhile_nil_iff (p : Char → Bool) (l : List Char) :
    l.dropWhile p = [] ↔ ∀ c ∈ l, p c = true := by
  induction l with
  | nil => simp
  | cons c t ih =>
    cases hc : p c with
    | true =>
      simp only [List.dropWhile, hc]
      rw [ih]
      constructor
      · intro h x hx
        rcases List.mem_cons.mp hx with rfl | hx
        · exact hc
        · exact h x hx
      · intro h x hx
        exact h x (List.mem_cons_of_mem c hx)
    | false =>
      simp only [List.dropWhile, hc]
      constructor
      · intro h; cases h
      · intro h
        have := h c (List.mem_cons_self c t)
        rw [hc] at this
        cases this

theorem mem_of_dropWhile (p : Char → Bool) (l : List Char) {x : Char}
    (h : x ∈ l.dropWhile p) : x ∈ l := by
  induction l with
  | nil => cases h
  | cons c t ih =>
    cases hc : p c with
    | true =>
      simp only [List.dropWhile, hc] at h
      exact List.mem_cons_of_mem c (ih h)
    | false =>
      simp only [List.dropWhile, hc] at h
      exact h

theorem trimChars_nil_iff (s : List Char) :
    trimChars s = [] ↔ ∀ c ∈ s, jsSpace c = true := by
  unfold trimChars
  rw [List.reverse_eq_nil_iff, dropWhile_nil_iff]
  constructor
  · intro h c hc
    by_cases hd : c ∈ s.dropWhile fun x => jsSpace x
    · exact h c (List.mem_reverse.mpr hd)
    · have hsplit : List.takeWhile (fun x => jsSpace x) s ++
          List.dropWhile (fun x => jsSpace x) s = s := by
        apply List.takeWhile_append_dropWhile
      rw [← hsplit] at hc
      rcases List.mem_append.mp hc with htk | hdr
      · exact List.mem_takeWhile_imp htk
      · exact absurd hdr hd
  · intro h c hc
    exact h c (mem_of_dropWhile (fun x => jsSpace x) s (List.mem_reverse.mp hc))

theorem lowerChar_cases (c : Char) :
    lowerChar c = c ∨ lowerChar c ∈
      ['a', 'b', 'c', 'd', 'e', 'f', 'g', 'h', 'i', 'j', 'k', 'l', 'm',
       'n', 'o', 'p', 'q', 'r', 's', 't', 'u', 'v', 'w', 'x', 'y', 'z'] := by
  unfold lowerChar
  split
  all_goals first
    | exact Or.inl rfl
    | exact Or.inr (by decide)

theorem lowerChar_idem (c : Char) : lowerChar (lowerChar c) = lowerChar c := by
  have hfix : ∀ d ∈
      ['a', 'b', 'c', 'd', 'e', 'f', 'g', 'h', 'i', 'j', 'k', 'l', 'm',
       'n', 'o', 'p', 'q', 'r', 's', 't', 'u', 'v', 'w', 'x', 'y', 'z'],
      lowerChar d = d := by decide
  rcases lowerChar_cases c with h | h
  · rw [h]; exact h
  · exact hfix (lowerChar c) h

theorem lowerChars_idem (l : List Char) :
    lowerChars (lowerChars l) = lowerChars l := by
  unfold lowerChars
  rw [List.map_map]
  exact List.map_congr_left fun c _ => lowerChar_idem c

/-- Fifty words whose only occurrence of the letters f-o-r is inside the
word "information". -/
def informationPad : List Char := "information".data ++ repChars 49 " red".data

/-! The claim theorems. -/

/-- C1: the gated half of the boundary holds — a 49-word submission yields
a gated result — but at exactly 50 words the engine does not return an
ungated result: the ungated branch raises the ReferenceError for the
unbound identifier LEARN_MORE_TEXT (line 279), contradicting both the
claim and the function's own header comment (lines 171-174). -/
theorem claimC1_gate_boundary :
    markPromptingResponse (.strV ⟨red49⟩) = .ok (gatedResult 49) ∧
    (gatedResult 49).gated = true ∧
    markPromptingResponse (.strV ⟨red50⟩) =
      .error (.referenceError "LEARN_MORE_TEXT") :=
  ⟨rfl, rfl, rfl⟩

/-- C2: whenever the engine returns a result flagged gated, every scoring
field (score, feedback, strengths, tags, grid, framework, modelAnswer) is
null, and only the gated flag, the word count and the fixed instructional
message are populated. -/
theorem claimC2_gated_fields_null (v : JsValue) (r : FeedbackResult)
    (hok : markPromptingResponse v = Except.ok r) (hg : r.gated = true) :
    r.score = none ∧ r.feedback = none ∧ r.strengths = none ∧ r.tags = none ∧
      r.grid = none ∧ r.framework = none ∧ r.modelAnswer = none ∧
      r.message = some gateMessage ∧ r.wordCount = wordCount v := by
  simp only [markPromptingResponse] at hok
  split at hok
  · simp only [Except.ok.injEq] at hok
    subst hok
    simp [gatedResult]
  · simp at hok

theorem claimC2_gated_fields_null_witness :
    (gatedResult 0).score = none ∧ (gatedResult 0).feedback = none ∧
      (gatedResult 0).strengths = none ∧ (gatedResult 0).tags = none ∧
      (gatedResult 0).grid = none ∧ (gatedResult 0).framework = none ∧
      (gatedResult 0).modelAnswer = none ∧
      (gatedResult 0).message = some gateMessage ∧
      (gatedResult 0).wordCount = wordCount (.strV "") :=
  claimC2_gated_fields_null (.strV "") (gatedResult 0) rfl rfl

/-- C3: on submissions of at least 50 words the score computed at lines
220-223 realises the second mapping the spec permits: presentCount 4 gives
10, presentCount 2 or 3 gives 7, presentCount below 2 gives 3. -/
theorem claimC3_score_mapping (raw : List Char) (_hwc : 50 ≤ countWords raw) :
    (presentCount (lowerChars raw) = 4 → scoreOf (lowerChars raw) = 10) ∧
    (2 ≤ presentCount (lowerChars raw) → presentCount (lowerChars raw) ≤ 3 →
      scoreOf (lowerChars raw) = 7) ∧
    (presentCount (lowerChars raw) < 2 → scoreOf (lowerChars raw) = 3) := by
  unfold scoreOf
  refine ⟨fun h4 => by rw [if_pos h4], fun h2 h3 => ?_, fun h1 => ?_⟩
  · rw [if_neg (by omega), if_pos (by omega)]
  · rw [if_neg (by omega), if_neg (by omega)]

theorem claimC3_score_mapping_witness :
    scoreOf (lowerChars allFourLong) = 10 :=
  (claimC3_score_mapping allFourLong (by decide)).1 (by decide)

/-- C4 counterexample: the all-four scenario input of the spec has only 28
words, so under this variant's 50-word gate the engine returns a gated
result, not the ungated maximum-tier result the claim states. -/
theorem claimC4_counterexample :
    markPromptingResponse (.strV c4Input) = .ok (gatedResult 28) ∧
    (gatedResult 28).gated = true :=
  ⟨rfl, rfl⟩

/-- C4 amended: the scenario input gates at 28 words; its text nevertheless
contains all four elements (presentCount 4), and the same text padded with
filler words to 50 words meets the gate and gets maximum-tier values:
score 10, the Excellent rubric message, and all four element tags ok. -/
theorem claimC4_allFour_scenario :
    countWords c4Input.data = 28 ∧
    presentCount (lowerChars c4Input.data) = 4 ∧
    countWords allFourLong = 50 ∧
    presentCount (lowerChars allFourLong) = 4 ∧
    scoreOf (lowerChars allFourLong) = 10 ∧
    rubricMsg (lowerChars allFourLong) =
      "Excellent – you’ve followed the prompt formula." ∧
    ((tagsOf (lowerChars allFourLong)).take 4).all
      (fun tg => tg.status == "ok") = true := by
  refine ⟨by decide, by decide, by decide, by decide, by decide, by decide, by decide⟩

/-- C5 counterexample: a 50-word submission in which no element is
detected; the code appends no fallback sentence, so the strengths list is
empty — refuting the claim that it is never empty. -/
theorem claimC5_counterexample :
    wordCount (.strV ⟨red50⟩) = 50 ∧
    presentCount (lowerChars red50) = 0 ∧
    strengthsTop (lowerChars red50) = [] := by
  refine ⟨by decide, by decide, by decide⟩

/-- C5 amended: for every submission of at least 50 words the strengths
list is the per-element fixed sentences in Role, Task, Context, Format
order truncated to the first three; there is no fallback sentence, so zero
detected elements give the empty list, and all four detected elements give
exactly the Role, Task and Context sentences with Format dropped. -/
theorem claimC5_strengths (raw : List Char) (_hwc : 50 ≤ countWords raw) :
    strengthsTop (lowerChars raw) =
      ((if hasRole (lowerChars raw) then [sRole] else []) ++
       (if hasTask (lowerChars raw) then [sTask] else []) ++
       (if hasContext (lowerChars raw) then [sContext] else []) ++
       (if hasFormat (lowerChars raw) then [sFormat] else [])).take 3 ∧
    (presentCount (lowerChars raw) = 4 →
      strengthsTop (lowerChars raw) = [sRole, sTask, sContext]) ∧
    (presentCount (lowerChars raw) = 0 → strengthsTop (lowerChars raw) = []) := by
  simp only [strengthsTop, strengthsFull, presentCount_eq]
  cases hasRole (lowerChars raw) <;> cases hasTask (lowerChars raw) <;>
    cases hasContext (lowerChars raw) <;> cases hasFormat (lowerChars raw) <;>
      decide

theorem claimC5_strengths_witness :
    strengthsTop (lowerChars allFourLong) = [sRole, sTask, sContext] :=
  (claimC5_strengths allFourLong (by decide)).2.1 (by decide)

/-- C6 counterexample: on a 50-word submission with exactly three detected
elements the fifth tag (Clarity) has status ok while the fifth grid row
(structure) is Developing, so the grid does not mirror the tags. -/
theorem claimC6_counterexample :
    countWords pc3Long = 50 ∧
    presentCount (lowerChars pc3Long) = 3 ∧
    (tagsOf (lowerChars pc3Long)).getD 4 ⟨"", ""⟩ = ⟨"Clarity", "ok"⟩ ∧
    (gridOf (lowerChars pc3Long)).«structure» = "◐ Developing" ∧
    agreeStatus "ok" "◐ Developing" = false := by
  refine ⟨by decide, by decide, by decide, by decide, by decide⟩

/-- C6 amended: each of the four element grid rows always mirrors the
status of the corresponding element tag, and the fifth pair mirrors
exactly when presentCount is not 3 — the Clarity tag is ok from
presentCount 3 upward while the structure grid row is Secure only at
presentCount 4. -/
theorem claimC6_grid_mirrors_tags (raw : List Char) (_hwc : 50 ≤ countWords raw) :
    agreeStatus ((tagsOf (lowerChars raw)).getD 0 ⟨"", ""⟩).status
      (gridOf (lowerChars raw)).ethical = true ∧
    agreeStatus ((tagsOf (lowerChars raw)).getD 1 ⟨"", ""⟩).status
      (gridOf (lowerChars raw)).impact = true ∧
    agreeStatus ((tagsOf (lowerChars raw)).getD 2 ⟨"", ""⟩).status
      (gridOf (lowerChars raw)).legal = true ∧
    agreeStatus ((tagsOf (lowerChars raw)).getD 3 ⟨"", ""⟩).status
      (gridOf (lowerChars raw)).recs = true ∧
    (agreeStatus ((tagsOf (lowerChars raw)).getD 4 ⟨"", ""⟩).status
      (gridOf (lowerChars raw)).«structure» = true
      ↔ presentCount (lowerChars raw) ≠ 3) := by
  simp only [tagsOf, gridOf, presentCount_eq]
  cases hasRole (lowerChars raw) <;> cases hasTask (lowerChars raw) <;>
    cases hasContext (lowerChars raw) <;> cases hasFormat (lowerChars raw) <;>
      decide

theorem claimC6_grid_mirrors_tags_witness :
    agreeStatus ((tagsOf (lowerChars allFourLong)).getD 4 ⟨"", ""⟩).status
      (gridOf (lowerChars allFourLong)).«structure» = true :=
  (claimC6_grid_mirrors_tags allFourLong (by decide)).2.2.2.2.mpr (by decide)

/-- C7 counterexample: at presentCount 4 the rubric message (line 243) is
"Excellent – you’ve followed the prompt formula." — en dash, typographic
apostrophe and trailing full stop — not the string the claim quotes. -/
theorem claimC7_counterexample :
    countWords allFourLong = 50 ∧
    presentCount (lowerChars allFourLong) = 4 ∧
    rubricMsg (lowerChars allFourLong) ≠
      "Excellent — you've followed the prompt formula" ∧
    rubricMsg (lowerChars allFourLong) =
      "Excellent – you’ve followed the prompt formula." := by
  refine ⟨by decide, by decide, by decide, by decide⟩

/-- C7 amended: the rubric message is one of exactly three fixed strings
selected by thresholding presentCount at 4 / at least 2 / below 2, with
the exact strings of lines 243-245 (en dashes, typographic apostrophe and
trailing full stops). -/
theorem claimC7_rubric_tiers (raw : List Char) (_hwc : 50 ≤ countWords raw) :
    (presentCount (lowerChars raw) = 4 →
      rubricMsg (lowerChars raw) =
        "Excellent – you’ve followed the prompt formula.") ∧
    (2 ≤ presentCount (lowerChars raw) → presentCount (lowerChars raw) ≤ 3 →
      rubricMsg (lowerChars raw) =
        "Good – try adding audience or tone to strengthen further.") ∧
    (presentCount (lowerChars raw) < 2 →
      rubricMsg (lowerChars raw) =
        "Needs improvement – use the formula: role, task, context, format.") := by
  unfold rubricMsg
  refine ⟨fun h4 => by rw [if_pos h4], fun h2 h3 => ?_, fun h1 => ?_⟩
  · rw [if_neg (by omega), if_pos (by omega)]
  · rw [if_neg (by omega), if_neg (by omega)]

theorem claimC7_rubric_tiers_witness :
    rubricMsg (lowerChars allFourLong) =
      "Excellent – you’ve followed the prompt formula." :=
  (claimC7_rubric_tiers allFourLong (by decide)).1 (by decide)

/-- C8 counterexample: the truthy non-string input 42 is coerced by
String(42) to "42", giving word count 1, not 0; the engine still gates it
without an error, but the claim's "any non-string input ... word count 0"
is false. -/
theorem claimC8_counterexample :
    wordCount (.numV 42) = 1 ∧
    wordCount (.numV 42) ≠ 0 ∧
    markPromptingResponse (.numV 42) = .ok (gatedResult 1) := by
  refine ⟨rfl, by decide, rfl⟩

/-- C8 amended: null, undefined, the empty string and whitespace-only
strings all give word count 0 and a gated result — the engine never raises
an error on them — and the word count of a string is 0 exactly when its
trimmed text is empty; a truthy non-string input, however, is coerced with
String(·) rather than treated as empty, so its word count can be nonzero
(see the counterexample). -/
theorem claimC8_malformed_inputs :
    markPromptingResponse .nullV = .ok (gatedResult 0) ∧
    markPromptingResponse .undefV = .ok (gatedResult 0) ∧
    (∀ s : List Char, (∀ c ∈ s, jsSpace c = true) →
      wordCount (.strV ⟨s⟩) = 0 ∧
        markPromptingResponse (.strV ⟨s⟩) = .ok (gatedResult 0)) ∧
    (∀ s : List Char, countWords s = 0 ↔ trimChars s = []) := by
  refine ⟨rfl, rfl, ?_, ?_⟩
  · intro s hs
    have hwc : wordCount (.strV ⟨s⟩) = 0 := by
      unfold wordCount jsOrEmpty
      cases hf : jsFalsy (.strV ⟨s⟩) with
      | true => rfl
      | false =>
        rw [if_neg (by simp)]
        exact countWordsAux_allSpace s hs false
    refine ⟨hwc, ?_⟩
    simp only [markPromptingResponse, hwc]
    rfl
  · intro s
    rw [countWords_eq_zero_iff, trimChars_nil_iff]

theorem claimC8_malformed_inputs_witness :
    wordCount (.strV ⟨"   ".data⟩) = 0 ∧
    markPromptingResponse (.strV ⟨"   ".data⟩) = .ok (gatedResult 0) :=
  claimC8_malformed_inputs.2.2.1 "   ".data (by decide)

/-- C9: appending (after a space) a trigger phrase of an element not yet
detected in an ungated submission never decreases presentCount, the score,
or the number of ok tags: all three are monotone under appending text,
because substring search, the label regex and word counting only gain
matches when text is appended. -/
theorem claimC9_monotone (raw : List Char) (e : Element) (p : List Char)
    (_hwc : 50 ≤ countWords raw) (_hp : p ∈ needlesOf e)
    (_hnd : detects e (lowerChars raw) = false) :
    presentCount (lowerChars raw) ≤ presentCount (lowerChars (raw ++ ' ' :: p)) ∧
    scoreOf (lowerChars raw) ≤ scoreOf (lowerChars (raw ++ ' ' :: p)) ∧
    okTagCount (lowerChars raw) ≤ okTagCount (lowerChars (raw ++ ' ' :: p)) := by
  rw [lowerChars_append]
  exact ⟨presentCount_append _ _, scoreOf_append _ _, okTagCount_append _ _⟩

theorem claimC9_monotone_witness :
    presentCount (lowerChars red50) ≤
      presentCount (lowerChars (red50 ++ ' ' :: "act as".data)) ∧
    scoreOf (lowerChars red50) ≤
      scoreOf (lowerChars (red50 ++ ' ' :: "act as".data)) ∧
    okTagCount (lowerChars red50) ≤
      okTagCount (lowerChars (red50 ++ ' ' :: "act as".data)) :=
  claimC9_monotone red50 .role "act as".data (by decide) (by decide) (by decide)

/-- C10: the Context trigger list contains the bare word "for", so every
ungated submission whose lowercased text contains "for" anywhere — also
inside another word such as "information" — is detected as having the
Context element. -/
theorem claimC10_bare_for (raw : List Char) (_hwc : 50 ≤ countWords raw)
    (hfor : containsSub (lowerChars raw) "for".data = true) :
    hasContext (lowerChars raw) = true := by
  unfold hasContext
  rw [Bool.or_eq_true]
  refine Or.inr ?_
  unfold hasAny
  rw [List.any_eq_true]
  refine ⟨"for".data, by decide, ?_⟩
  rw [lowerChars_idem]
  exact hfor

theorem claimC10_bare_for_witness :
    hasContext (lowerChars informationPad) = true :=
  claimC10_bare_for informationPad (by decide) (by decide)

end Automarker
